import Mathlib

/-!
# Verification of `pulseaudio-source-listener` (src/main.rs)

Shallow embedding of the program's data model and operations.

The program talks to a PulseAudio daemon through callback-driven queries.
Each embedded operation takes the daemon's responses as explicit inputs
(the messages that would arrive on the corresponding `mpsc` channel) and
returns the value the Rust function would return.  Panics (`unwrap`,
`panic!`) are modelled as explicit result constructors.
-/

set_option maxHeartbeats 1000000

/-- Embeds `struct SourceDatum { name: String, mute: bool }`. -/
structure SourceDatum where
  name : String
  mute : Bool
deriving DecidableEq

/-- Embeds `SourceDatum::new`. -/
def SourceDatum.new (name : String) (mute : Bool) : SourceDatum :=
  { name := name, mute := mute }

/-- Embeds `type Sources = HashMap<u32, SourceDatum>` as an association list;
`HashMap` iteration order is unspecified, the list order stands for it. -/
abbrev Sources := List (Nat × SourceDatum)

/-- Embeds `HashMap::insert`: overwrites the value at an existing key
(keeping its position), otherwise appends a fresh binding. -/
def Sources.insert (s : Sources) (k : Nat) (v : SourceDatum) : Sources :=
  if (List.any s (fun p => p.1 == k)) then
    List.map (fun p => if p.1 == k then (k, v) else p) s
  else
    List.append s [(k, v)]

/-- Embeds `HashMap::get` (`self.sources.get(&k)`). -/
def Sources.get (s : Sources) (k : Nat) : Option SourceDatum :=
  (List.find? (fun p => p.1 == k) s).map (fun p => p.2)

/-- Embeds `struct ListenerState { sources: Sources, default_source: u32 }`. -/
structure ListenerState where
  sources : Sources
  default_source : Nat
deriving DecidableEq

/-- Embeds the method `ListenerState::default_source(&self) -> Option<&SourceDatum>`
(`self.sources.get(&self.default_source)`); renamed because the Rust method
shares its name with the field. -/
def ListenerState.default_source_lookup (s : ListenerState) : Option SourceDatum :=
  Sources.get s.sources s.default_source

/-- One message of the daemon's `get_source_info_list` enumeration stream
(`ListResult<&SourceInfo>`): an item carries `index`, optional `name`, `mute`. -/
inductive ListResultMsg where
  | Error
  | End
  | Item (index : Nat) (name : Option String) (mute : Bool)
deriving DecidableEq

/-- Embeds `enum SrcListState { Item(u32, SourceDatum), Done, Err(String) }`. -/
inductive SrcListState where
  | Item (index : Nat) (source : SourceDatum)
  | Done
  | Err (msg : String)
deriving DecidableEq

/-- Embeds the closure passed to `introspector.get_source_info_list`: maps each
`ListResult` to the message sent on the channel (missing name becomes
`"unknown"`). -/
def source_list_callback : ListResultMsg → SrcListState
  | ListResultMsg.Error => SrcListState.Err "Failed to retrieve ListResult"
  | ListResultMsg.End => SrcListState.Done
  | ListResultMsg.Item index name mute =>
      SrcListState.Item index
        (SourceDatum.new
          (match name with
           | none => "unknown"
           | some n => n)
          mute)

/-- Embeds the receive loop of `get_sources`: drains the channel, inserting
items into the accumulated map, until `Done` (success), `Err` (propagated), or
channel disconnection (`src_rx.recv()?` fails when the list is exhausted). -/
def drain_sources : List SrcListState → Sources → Except String Sources
  | [], _ => Except.error "channel disconnected"
  | SrcListState.Item index source :: rest, sources =>
      drain_sources rest (Sources.insert sources index source)
  | SrcListState.Done :: _, sources => Except.ok sources
  | SrcListState.Err e :: _, _ => Except.error e

/-- Embeds `get_sources`: the daemon's enumeration response is the explicit
input; the callback translates it message by message and the loop drains it
starting from an empty map. -/
def get_sources (msgs : List ListResultMsg) : Except String Sources :=
  drain_sources (List.map source_list_callback msgs) []

/-- Embeds `enum DefaultSourceState { NoDefault, Default(String) }`. -/
inductive DefaultSourceState where
  | NoDefault
  | Default (name : String)
deriving DecidableEq

/-- Embeds the closure passed to `introspector.get_server_info`: classifies the
server's optional `default_source_name`. -/
def server_info_callback (default_source_name : Option String) : DefaultSourceState :=
  match default_source_name with
  | none => DefaultSourceState.NoDefault
  | some value => DefaultSourceState.Default value

/-- Embeds `find_default_source_name`: the daemon's `default_source_name` is
the explicit input; `NoDefault` yields the sentinel `Ok("No default source")`. -/
def find_default_source_name (default_source_name : Option String) :
    Except String String :=
  match server_info_callback default_source_name with
  | DefaultSourceState.NoDefault => Except.ok "No default source"
  | DefaultSourceState.Default name => Except.ok name

/-- Embeds the `for (index, source) in sources` scan of
`get_default_source_index`: first record whose name equals the resolved
default name wins; no match is the error `"failed to set default source"`. -/
def find_index_loop : List (Nat × SourceDatum) → String → Except String Nat
  | [], _ => Except.error "failed to set default source"
  | (index, source) :: rest, default_source_name =>
      if source.name == default_source_name then Except.ok index
      else find_index_loop rest default_source_name

/-- Embeds `get_default_source_index`. -/
def get_default_source_index (default_source_name : Option String)
    (sources : Sources) : Except String Nat :=
  match find_default_source_name default_source_name with
  | Except.error e => Except.error e
  | Except.ok name => find_index_loop sources name

/-- Embeds `handle_server_change`: re-resolves the default id against the
existing catalog and stores it; the `?` propagates a resolution failure
before any assignment happens. -/
def handle_server_change (state : ListenerState)
    (default_source_name : Option String) : Except String ListenerState :=
  match get_default_source_index default_source_name state.sources with
  | Except.error e => Except.error e
  | Except.ok idx => Except.ok { state with default_source := idx }

/-- Embeds `pulse::context::State` (the daemon connection lifecycle). -/
inductive ContextState where
  | Unconnected
  | Connecting
  | Authorizing
  | SettingName
  | Ready
  | Failed
  | Terminated
deriving DecidableEq

/-- Outcome of `connect_to_server`: its `Result`, plus whether the context
state callback is still registered when it returns (`Ready` deregisters it
via `set_state_callback(None)`; the error returns leave it in place). -/
structure ConnectOutcome where
  result : Except String Unit
  state_callback_registered : Bool

/-- Embeds the wait loop of `connect_to_server` over the sequence of context
states observed at each state-change wakeup.  `none` models the loop still
blocked waiting for the next notification. -/
def connect_to_server : List ContextState → Option ConnectOutcome
  | [] => none
  | s :: rest =>
      match s with
      | ContextState.Unconnected => connect_to_server rest
      | ContextState.Connecting => connect_to_server rest
      | ContextState.Authorizing => connect_to_server rest
      | ContextState.SettingName => connect_to_server rest
      | ContextState.Ready =>
          some { result := Except.ok (), state_callback_registered := false }
      | ContextState.Failed =>
          some { result := Except.error "Context connect failed",
                 state_callback_registered := true }
      | ContextState.Terminated =>
          some { result := Except.error "Context terminated",
                 state_callback_registered := true }

/-- Embeds `pulse::context::subscribe::Facility`. -/
inductive Facility where
  | Sink
  | Source
  | SinkInput
  | SourceOutput
  | Module
  | Client
  | SampleCache
  | Server
  | Card
deriving DecidableEq

/-- Embeds `pulse::context::subscribe::Operation`. -/
inductive Operation where
  | New
  | Changed
  | Removed
deriving DecidableEq

/-- Embeds the subscribe callback of `subscribe_source_mute`: returns the list
of messages sent into the event channel (`none` models the panic of
`facility.unwrap()` / `operation.unwrap()`).  Only `Source`/`Changed` and
`Server` events emit; `New`/`Removed` and other facilities are only logged. -/
def subscribe_callback (facility : Option Facility) (operation : Option Operation) :
    Option (List Facility) :=
  match facility, operation with
  | none, _ => none
  | some _, none => none
  | some f, some op =>
      some
        (match f with
         | Facility.Source =>
             match op with
             | Operation.Changed => [Facility.Source]
             | Operation.New => []
             | Operation.Removed => []
         | Facility.Server => [Facility.Server]
         | _ => [])

/-- Result of one iteration of the reconciler loop in `subscribe_source_mute`:
either a new state plus the lines printed to stdout, or one of the two panic
sites (`get_sources(..).unwrap()` on an `Err`, or `panic!("impossible state")`). -/
inductive StepResult where
  | ok (state : ListenerState) (output : List String)
  | query_panicked (msg : String)
  | impossible_state
deriving DecidableEq

/-- Embeds the tail of a loop iteration: `if let Some(new_src) = state.default_source()`
prints on a mute-state change, `else` prints `"No default source"`. -/
def mute_transition_output (old_default_mute : Option Bool)
    (state : ListenerState) : List String :=
  match ListenerState.default_source_lookup state with
  | some new_src =>
      if some new_src.mute ≠ old_default_mute then
        [if new_src.mute then "MUTED" else "UNMUTED"]
      else []
  | none => ["No default source"]

/-- Embeds one iteration of the reconciler loop of `subscribe_source_mute`:
reads the old default's mute state, consumes one event, re-queries (the
daemon's responses `default_source_name` and `source_msgs` are explicit
inputs), and reports.  On a `Server` event the result of
`handle_server_change` is discarded (`let _ = ...`): an error leaves the
state unchanged.  Both arms then refresh the catalog with
`get_sources(..).unwrap()`. -/
def reconcile_step (state : ListenerState) (event_type : Facility)
    (default_source_name : Option String) (source_msgs : List ListResultMsg) :
    StepResult :=
  let old_default_mute := (ListenerState.default_source_lookup state).map SourceDatum.mute
  match event_type with
  | Facility.Server =>
      let state1 :=
        match handle_server_change state default_source_name with
        | Except.ok s => s
        | Except.error _ => state
      match get_sources source_msgs with
      | Except.error e => StepResult.query_panicked e
      | Except.ok sources =>
          let state2 : ListenerState := { state1 with sources := sources }
          StepResult.ok state2 (mute_transition_output old_default_mute state2)
  | Facility.Source =>
      match get_sources source_msgs with
      | Except.error e => StepResult.query_panicked e
      | Except.ok sources =>
          let state2 : ListenerState := { state with sources := sources }
          StepResult.ok state2 (mute_transition_output old_default_mute state2)
  | _ => StepResult.impossible_state

/-! ## Helper lemmas -/

/-- A successful `find_index_loop` result is the index of some record of the
scanned list whose name equals the resolved name. -/
theorem find_index_loop_ok_mem : ∀ (l : List (Nat × SourceDatum)) (n : String) (i : Nat),
    find_index_loop l n = Except.ok i → ∃ s, (i, s) ∈ l ∧ s.name = n := by
  intro l
  induction l with
  | nil => intro n i h; simp [find_index_loop] at h
  | cons hd tl ih =>
      intro n i h
      obtain ⟨idx, src⟩ := hd
      simp only [find_index_loop] at h
      split at h
      next hn =>
        cases h
        exact ⟨src, List.mem_cons_self _ _, by simpa using hn⟩
      next hn =>
        obtain ⟨s, hs, hsn⟩ := ih n i h
        exact ⟨s, List.mem_cons_of_mem _ hs, hsn⟩

/-- `find_index_loop` succeeds exactly when some record of the list carries
the searched name. -/
theorem find_index_loop_ok_iff : ∀ (l : List (Nat × SourceDatum)) (n : String),
    (∃ i, find_index_loop l n = Except.ok i) ↔ ∃ p ∈ l, p.2.name = n := by
  intro l
  induction l with
  | nil => intro n; simp [find_index_loop]
  | cons hd tl ih =>
      intro n
      obtain ⟨idx, src⟩ := hd
      by_cases hn : src.name = n
      · constructor
        · intro _
          exact ⟨(idx, src), List.mem_cons_self _ _, hn⟩
        · intro _
          refine ⟨idx, ?_⟩
          simp only [find_index_loop]
          rw [if_pos (by simpa using hn)]
      · have hb : ¬((src.name == n) = true) := by simpa using hn
        simp only [find_index_loop]
        rw [if_neg hb, ih n]
        constructor
        · rintro ⟨p, hp, hpn⟩
          exact ⟨p, List.mem_cons_of_mem _ hp, hpn⟩
        · rintro ⟨p, hp, hpn⟩
          rcases List.mem_cons.mp hp with rfl | hp2
          · exact absurd hpn hn
          · exact ⟨p, hp2, hpn⟩

/-- When no record carries the searched name, `find_index_loop` returns the
`"failed to set default source"` error. -/
theorem find_index_loop_error_of_no_match : ∀ (l : List (Nat × SourceDatum)) (n : String),
    (∀ p ∈ l, p.2.name ≠ n) →
    find_index_loop l n = Except.error "failed to set default source" := by
  intro l
  induction l with
  | nil => intro n _; rfl
  | cons hd tl ih =>
      intro n h
      obtain ⟨idx, src⟩ := hd
      have hn : src.name ≠ n := h (idx, src) (List.mem_cons_self _ _)
      have hb : ¬((src.name == n) = true) := by simpa using hn
      simp only [find_index_loop]
      rw [if_neg hb]
      exact ih n (fun p hp => h p (List.mem_cons_of_mem _ hp))

/-- A key that binds some value in the association list makes `Sources.get`
succeed. -/
theorem sources_get_isSome_of_mem (l : Sources) (i : Nat) (s : SourceDatum)
    (h : (i, s) ∈ l) : (Sources.get l i).isSome = true := by
  have hs : (List.find? (fun p => p.1 == i) l).isSome = true :=
    List.find?_isSome.mpr ⟨(i, s), h, by simp⟩
  unfold Sources.get
  cases hf : List.find? (fun p => p.1 == i) l with
  | none => rw [hf] at hs; simp at hs
  | some p => rfl

/-- Draining a run of item messages followed by an error marker yields that
error, whatever has been accumulated so far. -/
theorem drain_sources_err (msg : String) :
    ∀ (items : List SrcListState) (rest : List SrcListState) (acc : Sources),
    (∀ m ∈ items, ∃ i s, m = SrcListState.Item i s) →
    drain_sources (items ++ SrcListState.Err msg :: rest) acc = Except.error msg := by
  intro items
  induction items with
  | nil => intro rest acc _; rfl
  | cons hd tl ih =>
      intro rest acc h
      obtain ⟨i, s, rfl⟩ := h hd (List.mem_cons_self _ _)
      simp only [List.cons_append, drain_sources]
      exact ih rest _ (fun m hm => h m (List.mem_cons_of_mem _ hm))

/-- The lines printed by a successful reconciler iteration are exactly
`mute_transition_output` of the pre-event mute state and the new state. -/
theorem reconcile_step_ok_output (state : ListenerState) (event_type : Facility)
    (default_source_name : Option String) (source_msgs : List ListResultMsg)
    (state2 : ListenerState) (output : List String)
    (h : reconcile_step state event_type default_source_name source_msgs =
      StepResult.ok state2 output) :
    output = mute_transition_output
      ((ListenerState.default_source_lookup state).map SourceDatum.mute) state2 := by
  cases event_type
  case Source =>
    unfold reconcile_step at h
    cases hg : get_sources source_msgs with
    | error e =>
        rw [hg] at h
        exact StepResult.noConfusion h
    | ok srcs =>
        rw [hg] at h
        injection h with h1 h2
        subst h1
        subst h2
        rfl
  case Server =>
    unfold reconcile_step at h
    cases hh : handle_server_change state default_source_name with
    | ok st1 =>
        rw [hh] at h
        cases hg : get_sources source_msgs with
        | error e =>
            rw [hg] at h
            exact StepResult.noConfusion h
        | ok srcs =>
            rw [hg] at h
            injection h with h1 h2
            subst h1
            subst h2
            rfl
    | error e1 =>
        rw [hh] at h
        cases hg : get_sources source_msgs with
        | error e =>
            rw [hg] at h
            exact StepResult.noConfusion h
        | ok srcs =>
            rw [hg] at h
            injection h with h1 h2
            subst h1
            subst h2
            rfl
  all_goals exact StepResult.noConfusion h

/-! ## Claims -/

/-- C5: if the enumeration in `get_sources` receives an error marker mid-flight
after any number of item messages, all partially accumulated items are
discarded and an error is returned; a partial catalog is never returned as
success. -/
theorem C5_no_partial_catalog (items rest : List ListResultMsg)
    (h : ∀ m ∈ items, ∃ i n b, m = ListResultMsg.Item i n b) :
    get_sources (items ++ ListResultMsg.Error :: rest) =
      Except.error "Failed to retrieve ListResult" := by
  unfold get_sources
  rw [List.map_append]
  have hmap : List.map source_list_callback (ListResultMsg.Error :: rest) =
      SrcListState.Err "Failed to retrieve ListResult" ::
        List.map source_list_callback rest := rfl
  rw [hmap]
  apply drain_sources_err
  intro m hm
  rcases List.mem_map.mp hm with ⟨x, hx, rfl⟩
  obtain ⟨i, n, b, rfl⟩ := h x hx
  exact ⟨i, _, rfl⟩

/-- Witness for C5: two items followed by the error marker produce the error,
not a two-entry catalog. -/
theorem C5_no_partial_catalog_witness :
    get_sources [ListResultMsg.Item 1 (some "alpha") false,
        ListResultMsg.Item 2 none true, ListResultMsg.Error] =
      Except.error "Failed to retrieve ListResult" :=
  C5_no_partial_catalog
    [ListResultMsg.Item 1 (some "alpha") false, ListResultMsg.Item 2 none true] []
    (by
      intro m hm
      rcases List.mem_cons.mp hm with rfl | hm2
      · exact ⟨1, some "alpha", false, rfl⟩
      · rcases List.mem_cons.mp hm2 with rfl | hm3
        · exact ⟨2, none, true, rfl⟩
        · cases hm3)

/-- C8: when the daemon's server information reports no default source name,
`find_default_source_name` returns `Ok` with the sentinel string
`"No default source"`, not an error. -/
theorem C8_no_default_sentinel :
    find_default_source_name none = Except.ok "No default source" := rfl

/-- C9: whenever `get_default_source_index` returns `Ok(i)`, `i` is a key of
the catalog it was given; consequently, after a successful default
re-resolution in `handle_server_change`, looking up the default source in that
same catalog succeeds, so the `unwrap` on `state.default_source()` cannot
panic. -/
theorem C9_default_lookup_safe :
    (∀ (default_source_name : Option String) (sources : Sources) (i : Nat),
        get_default_source_index default_source_name sources = Except.ok i →
        (Sources.get sources i).isSome = true) ∧
    (∀ (state : ListenerState) (default_source_name : Option String)
        (state2 : ListenerState),
        handle_server_change state default_source_name = Except.ok state2 →
        (ListenerState.default_source_lookup state2).isSome = true) := by
  have key : ∀ (dsn : Option String) (sources : Sources) (i : Nat),
      get_default_source_index dsn sources = Except.ok i →
      (Sources.get sources i).isSome = true := by
    intro dsn sources i h
    unfold get_default_source_index at h
    cases hf : find_default_source_name dsn with
    | error e => rw [hf] at h; cases h
    | ok n =>
        rw [hf] at h
        obtain ⟨s, hmem, _⟩ := find_index_loop_ok_mem sources n i h
        exact sources_get_isSome_of_mem sources i s hmem
  refine ⟨key, ?_⟩
  intro state dsn state2 h
  unfold handle_server_change at h
  cases hg : get_default_source_index dsn state.sources with
  | error e => rw [hg] at h; cases h
  | ok idx =>
      rw [hg] at h
      injection h with h1
      subst h1
      simpa [ListenerState.default_source_lookup] using key dsn state.sources idx hg

/-- Witness for C9: resolving `"mic"` against a one-record catalog yields key
1, which the catalog lookup finds. -/
theorem C9_default_lookup_safe_witness :
    (Sources.get [(1, SourceDatum.new "mic" false)] 1).isSome = true :=
  C9_default_lookup_safe.1 (some "mic") [(1, SourceDatum.new "mic" false)] 1 rfl

/-- C6: `connect_to_server` keeps waiting on every non-terminal connection
state (`Unconnected`, `Connecting`, `Authorizing`, `SettingName`); `Ready`
returns success and deregisters the state callback; `Failed` returns the
connection-failed error; `Terminated` returns the connection-terminated
error. -/
theorem C6_connect_to_server (pre : List ContextState)
    (h : ∀ s ∈ pre, s = ContextState.Unconnected ∨ s = ContextState.Connecting ∨
      s = ContextState.Authorizing ∨ s = ContextState.SettingName) :
    connect_to_server pre = none ∧
    connect_to_server (pre ++ [ContextState.Ready]) =
      some { result := Except.ok (), state_callback_registered := false } ∧
    connect_to_server (pre ++ [ContextState.Failed]) =
      some { result := Except.error "Context connect failed",
             state_callback_registered := true } ∧
    connect_to_server (pre ++ [ContextState.Terminated]) =
      some { result := Except.error "Context terminated",
             state_callback_registered := true } := by
  induction pre with
  | nil => exact ⟨rfl, rfl, rfl, rfl⟩
  | cons hd tl ih =>
      have hhd := h hd (List.mem_cons_self _ _)
      have htl := fun s hs => h s (List.mem_cons_of_mem _ hs)
      obtain ⟨h1, h2, h3, h4⟩ := ih htl
      rcases hhd with rfl | rfl | rfl | rfl <;> exact ⟨h1, h2, h3, h4⟩

/-- Witness for C6: one `Connecting` wakeup keeps the loop waiting, and each
terminal state produces the corresponding outcome. -/
theorem C6_connect_to_server_witness :
    connect_to_server [ContextState.Connecting] = none ∧
    connect_to_server [ContextState.Connecting, ContextState.Ready] =
      some { result := Except.ok (), state_callback_registered := false } ∧
    connect_to_server [ContextState.Connecting, ContextState.Failed] =
      some { result := Except.error "Context connect failed",
             state_callback_registered := true } ∧
    connect_to_server [ContextState.Connecting, ContextState.Terminated] =
      some { result := Except.error "Context terminated",
             state_callback_registered := true } :=
  C6_connect_to_server [ContextState.Connecting]
    (by
      intro s hs
      rw [List.mem_singleton] at hs
      subst hs
      exact Or.inr (Or.inl rfl))

/-- C7: the subscription callback never emits an event into the reconciler
channel for device-domain `added` (`New`) or `removed` operations — only
device `changed` operations and server-domain events are sent. -/
theorem C7_no_add_remove_emission :
    subscribe_callback (some Facility.Source) (some Operation.New) = some [] ∧
    subscribe_callback (some Facility.Source) (some Operation.Removed) = some [] ∧
    (∀ (f : Facility) (op : Operation) (msgs : List Facility) (e : Facility),
        subscribe_callback (some f) (some op) = some msgs → e ∈ msgs →
        (f = Facility.Source ∧ op = Operation.Changed ∧ e = Facility.Source) ∨
        (f = Facility.Server ∧ e = Facility.Server)) := by
  refine ⟨rfl, rfl, ?_⟩
  intro f op msgs e hcb he
  cases f <;> cases op <;>
    (injection hcb with hmsgs; subst hmsgs; simp_all)

/-- Witness for C7: a `Source`/`Changed` event emits exactly the `Source`
classification. -/
theorem C7_no_add_remove_emission_witness :
    (Facility.Source = Facility.Source ∧ Operation.Changed = Operation.Changed ∧
      Facility.Source = Facility.Source) ∨
    (Facility.Source = Facility.Server ∧ Facility.Source = Facility.Server) :=
  C7_no_add_remove_emission.2.2 Facility.Source Operation.Changed [Facility.Source]
    Facility.Source rfl (List.mem_singleton.mpr rfl)

/-- C10: the `panic!("impossible state")` branch of the reconciler loop is
unreachable: the subscription callback only ever sends `Facility::Source` or
`Facility::Server` into the event channel, and on those two values the
reconciler iteration never reaches the impossible-state panic. -/
theorem C10_impossible_state_unreachable :
    (∀ (facility : Option Facility) (operation : Option Operation)
        (msgs : List Facility) (e : Facility),
        subscribe_callback facility operation = some msgs → e ∈ msgs →
        e = Facility.Source ∨ e = Facility.Server) ∧
    (∀ (state : ListenerState) (e : Facility) (default_source_name : Option String)
        (source_msgs : List ListResultMsg),
        (e = Facility.Source ∨ e = Facility.Server) →
        reconcile_step state e default_source_name source_msgs ≠
          StepResult.impossible_state) := by
  constructor
  · intro facility operation msgs e hcb he
    cases facility with
    | none => cases hcb
    | some f =>
        cases operation with
        | none => cases hcb
        | some op =>
            cases f <;> cases op <;>
              (injection hcb with hmsgs; subst hmsgs; simp_all)
  · intro state e default_source_name source_msgs he
    rcases he with rfl | rfl
    · unfold reconcile_step
      cases hg : get_sources source_msgs with
      | error e2 => intro hc; exact StepResult.noConfusion hc
      | ok srcs => intro hc; exact StepResult.noConfusion hc
    · unfold reconcile_step
      cases hh : handle_server_change state default_source_name with
      | ok st1 =>
          cases hg : get_sources source_msgs with
          | error e2 => intro hc; exact StepResult.noConfusion hc
          | ok srcs => intro hc; exact StepResult.noConfusion hc
      | error e1 =>
          cases hg : get_sources source_msgs with
          | error e2 => intro hc; exact StepResult.noConfusion hc
          | ok srcs => intro hc; exact StepResult.noConfusion hc

/-- Witness for C10: a `Source` event on an empty state with a well-terminated
enumeration does not hit the impossible-state panic. -/
theorem C10_impossible_state_unreachable_witness :
    reconcile_step { sources := [], default_source := 0 } Facility.Source none
        [ListResultMsg.End] ≠ StepResult.impossible_state :=
  C10_impossible_state_unreachable.2 { sources := [], default_source := 0 }
    Facility.Source none [ListResultMsg.End] (Or.inl rfl)

/-- C1 (amended): in every successful reconciler iteration, if a default
exists after the refresh, exactly one `"MUTED"`/`"UNMUTED"` line (matching the
new default's mute state) is printed when `after != before` and zero lines
when `after == before`; if no default exists after the refresh, the
`"No default source"` notice is printed unconditionally — even when `before`
was already absent. -/
theorem C1_transition_emission (state : ListenerState) (event_type : Facility)
    (default_source_name : Option String) (source_msgs : List ListResultMsg)
    (state2 : ListenerState) (output : List String)
    (hstep : reconcile_step state event_type default_source_name source_msgs =
      StepResult.ok state2 output) :
    (∀ new_src, ListenerState.default_source_lookup state2 = some new_src →
        (some new_src.mute ≠
            (ListenerState.default_source_lookup state).map SourceDatum.mute →
          output = [if new_src.mute then "MUTED" else "UNMUTED"]) ∧
        (some new_src.mute =
            (ListenerState.default_source_lookup state).map SourceDatum.mute →
          output = [])) ∧
    (ListenerState.default_source_lookup state2 = none →
        output = ["No default source"]) := by
  have hout := reconcile_step_ok_output state event_type default_source_name
    source_msgs state2 output hstep
  subst hout
  constructor
  · intro new_src hlook
    constructor
    · intro hne
      simp only [mute_transition_output, hlook]
      rw [if_pos hne]
    · intro heq
      simp only [mute_transition_output, hlook]
      rw [if_neg (not_not_intro heq)]
  · intro hnone
    simp only [mute_transition_output, hnone]

/-- C1 is refuted as stated: with no default before the event and no default
after the refresh (`before == after`, both absent), the iteration still prints
one `"No default source"` line instead of zero lines. -/
theorem C1_counterexample :
    ListenerState.default_source_lookup
        { sources := [(1, SourceDatum.new "mic" false)], default_source := 5 } = none ∧
    reconcile_step
        { sources := [(1, SourceDatum.new "mic" false)], default_source := 5 }
        Facility.Source none
        [ListResultMsg.Item 1 (some "mic") false, ListResultMsg.End] =
      StepResult.ok
        { sources := [(1, SourceDatum.new "mic" false)], default_source := 5 }
        ["No default source"] :=
  ⟨rfl, rfl⟩

/-- Witness for C1: the default flips from unmuted to muted and exactly one
`"MUTED"` line is produced. -/
theorem C1_transition_emission_witness :
    ["MUTED"] = [if (SourceDatum.new "mic" true).mute then "MUTED" else "UNMUTED"] :=
  ((C1_transition_emission
      { sources := [(1, SourceDatum.new "mic" false)], default_source := 1 }
      Facility.Source none
      [ListResultMsg.Item 1 (some "mic") true, ListResultMsg.End]
      { sources := [(1, SourceDatum.new "mic" true)], default_source := 1 }
      ["MUTED"] rfl).1 (SourceDatum.new "mic" true) rfl).1 (by decide)

/-- C2 (amended): after the reconciler processes any event, the presence of a
default is determined by looking up `default_source` in the freshly refreshed
catalog; but when default-name resolution fails during a server change, the
previous `default_source` id is retained unchanged rather than cleared, so a
stale id that is still a key of the refreshed catalog remains in effect. -/
theorem C2_stale_default_retained (state : ListenerState)
    (default_source_name : Option String) (source_msgs : List ListResultMsg)
    (state2 : ListenerState) (output : List String) (e : String)
    (hres : get_default_source_index default_source_name state.sources =
      Except.error e)
    (hstep : reconcile_step state Facility.Server default_source_name source_msgs =
      StepResult.ok state2 output) :
    state2.default_source = state.default_source ∧
    get_sources source_msgs = Except.ok state2.sources := by
  have hh : handle_server_change state default_source_name = Except.error e := by
    unfold handle_server_change
    rw [hres]
  unfold reconcile_step at hstep
  rw [hh] at hstep
  cases hg : get_sources source_msgs with
  | error e2 =>
      rw [hg] at hstep
      exact StepResult.noConfusion hstep
  | ok srcs =>
      rw [hg] at hstep
      injection hstep with h1 h2
      subst h1
      exact ⟨rfl, rfl⟩

/-- C2 is refuted as stated: the daemon's new default name `"bluetooth"`
matches nothing, resolution fails, yet after the iteration the old default id
1 is still present (a key of the refreshed catalog) instead of being treated
as absent. -/
theorem C2_counterexample :
    get_default_source_index (some "bluetooth")
        [(1, SourceDatum.new "mic" false)] =
      Except.error "failed to set default source" ∧
    reconcile_step { sources := [(1, SourceDatum.new "mic" false)], default_source := 1 }
        Facility.Server (some "bluetooth")
        [ListResultMsg.Item 1 (some "mic") false, ListResultMsg.End] =
      StepResult.ok
        { sources := [(1, SourceDatum.new "mic" false)], default_source := 1 } [] ∧
    (ListenerState.default_source_lookup
        { sources := [(1, SourceDatum.new "mic" false)], default_source := 1 }).isSome
      = true :=
  ⟨rfl, rfl, rfl⟩

/-- Witness for C2 (amended): on a failed resolution the iteration keeps the
old default id and installs the freshly queried catalog. -/
theorem C2_stale_default_retained_witness :
    (ListenerState.default_source
        { sources := [(1, SourceDatum.new "mic" false)], default_source := 1 }) =
      (ListenerState.default_source
        { sources := [(1, SourceDatum.new "mic" false)], default_source := 1 }) ∧
    get_sources [ListResultMsg.Item 1 (some "mic") false, ListResultMsg.End] =
      Except.ok (ListenerState.sources
        { sources := [(1, SourceDatum.new "mic" false)], default_source := 1 }) :=
  C2_stale_default_retained
    { sources := [(1, SourceDatum.new "mic" false)], default_source := 1 }
    (some "bluetooth") [ListResultMsg.Item 1 (some "mic") false, ListResultMsg.End]
    { sources := [(1, SourceDatum.new "mic" false)], default_source := 1 }
    [] "failed to set default source" rfl rfl

/-- C3 (amended): `get_default_source_index` returns an id iff at least one
record of the catalog carries the resolved default name (the first such record
in iteration order wins — uniqueness is not checked); otherwise — including
when the resolved name is the no-default sentinel and no source carries that
literal name — it returns the `"failed to set default source"` error value
rather than crashing. -/
theorem C3_resolution (default_source_name : Option String) (sources : Sources) :
    ((∃ i, get_default_source_index default_source_name sources = Except.ok i) ↔
      ∃ p ∈ sources,
        p.2.name = Option.getD default_source_name "No default source") ∧
    ((¬∃ p ∈ sources,
        p.2.name = Option.getD default_source_name "No default source") →
      get_default_source_index default_source_name sources =
        Except.error "failed to set default source") := by
  have hunfold : get_default_source_index default_source_name sources =
      find_index_loop sources (Option.getD default_source_name "No default source") := by
    cases default_source_name <;> rfl
  rw [hunfold]
  constructor
  · exact find_index_loop_ok_iff sources _
  · intro hno
    apply find_index_loop_error_of_no_match
    intro p hp hpn
    exact hno ⟨p, hp, hpn⟩

/-- C3 is refuted as stated: with two records both named `"mic"` there is not
exactly one match, yet an id (the first in iteration order) is returned
instead of an absent result. -/
theorem C3_counterexample :
    (List.filter (fun p => p.2.name == "mic")
        [(1, SourceDatum.new "mic" false), (2, SourceDatum.new "mic" true)]).length
      = 2 ∧
    get_default_source_index (some "mic")
        [(1, SourceDatum.new "mic" false), (2, SourceDatum.new "mic" true)] =
      Except.ok 1 :=
  ⟨rfl, rfl⟩

/-- Witness for C3 (amended): a single matching record makes resolution
succeed. -/
theorem C3_resolution_witness :
    ∃ i, get_default_source_index (some "mic") [(1, SourceDatum.new "mic" false)] =
      Except.ok i :=
  (C3_resolution (some "mic") [(1, SourceDatum.new "mic" false)]).1.mpr
    ⟨(1, SourceDatum.new "mic" false), List.mem_singleton.mpr rfl, rfl⟩

/-- C4 (amended): during the steady-state loop a catalog re-query error is
fatal (the `unwrap` panics, terminating the process), but a default-source
re-query error during a server change is ignored (`let _ = ...`): the
iteration continues normally with the previous default id. -/
theorem C4_error_handling (state : ListenerState) (event_type : Facility)
    (default_source_name : Option String) (source_msgs : List ListResultMsg)
    (e : String) :
    (get_sources source_msgs = Except.error e →
      (event_type = Facility.Source ∨ event_type = Facility.Server) →
      reconcile_step state event_type default_source_name source_msgs =
        StepResult.query_panicked e) ∧
    (∀ (sources : Sources),
      get_sources source_msgs = Except.ok sources →
      get_default_source_index default_source_name state.sources = Except.error e →
      reconcile_step state Facility.Server default_source_name source_msgs =
        StepResult.ok { state with sources := sources }
          (mute_transition_output
            ((ListenerState.default_source_lookup state).map SourceDatum.mute)
            { state with sources := sources })) := by
  constructor
  · intro hg hev
    rcases hev with rfl | rfl
    · unfold reconcile_step
      rw [hg]
    · unfold reconcile_step
      cases hh : handle_server_change state default_source_name <;> rw [hg]
  · intro sources hg hres
    have hh : handle_server_change state default_source_name = Except.error e := by
      unfold handle_server_change
      rw [hres]
    unfold reconcile_step
    rw [hh, hg]

/-- C4 is refuted as stated: the default-source re-query fails inside a server
iteration, yet the process does not terminate — the iteration completes
normally (the error is ignored). -/
theorem C4_counterexample :
    get_default_source_index (some "bluetooth") [(2, SourceDatum.new "mic" true)] =
      Except.error "failed to set default source" ∧
    reconcile_step { sources := [(2, SourceDatum.new "mic" true)], default_source := 2 }
        Facility.Server (some "bluetooth")
        [ListResultMsg.Item 2 (some "mic") true, ListResultMsg.End] =
      StepResult.ok
        { sources := [(2, SourceDatum.new "mic" true)], default_source := 2 } [] :=
  ⟨rfl, rfl⟩

/-- Witness for C4 (amended): a catalog re-query error panics the iteration. -/
theorem C4_error_handling_witness :
    reconcile_step { sources := [], default_source := 0 } Facility.Source none
        [ListResultMsg.Error] =
      StepResult.query_panicked "Failed to retrieve ListResult" :=
  (C4_error_handling { sources := [], default_source := 0 } Facility.Source none
      [ListResultMsg.Error] "Failed to retrieve ListResult").1 rfl (Or.inl rfl)
